import Mathlib

/-!
Shallow embedding of `informant.py` (an Arch Linux news reader / pacman hook).

The script keeps a global readlist `READLIST : list of strings`, a pickled
store file on disk holding `(CACHE, READLIST)`, and dispatches three
commands (`check`, `list`, `read`) over a feed sorted by timestamp
descending.  We embed:

  * entries as a structure with `title`, `timestamp`, `body`
    (`entry['timestamp']` is a datetime; we model `date.timestamp()` as an
    integer and `str(...)` of it as `toString`);
  * the process state as a `Machine`: the in-memory readlist plus the
    readlist portion of the on-disk store file (the cache part of the
    pickle is never changed by the commands under study, so the file
    content is modelled by the readlist it stores);
  * printing as a trace of `Output` events (`pretty_print_item`,
    the multi-unread summary line, `pacman_msg` advisories);
  * `sys.exit(n)` as an `Option Nat` exit code, and unhandled Python
    exceptions as explicit error values (`PyError`, `LoadErr`).
-/

namespace Informant

/-- ANSI color escapes from the script. -/
def RED : String := "\x1b[0;31m"

def YELLOW : String := "\x1b[1;33m"

def CLEAR : String := "\x1b[0m"

def BOLD : String := "\x1b[1m"

/-- Default save-file path (`FILE_DEFAULT`). -/
def FILE_DEFAULT : String := "/var/cache/informant.dat"

/-- `get_save_name()`: the `--file` option if given, else `FILE_DEFAULT`. -/
def get_save_name (fileOpt : Option String) : String :=
  match fileOpt with
  | some f => f
  | none => FILE_DEFAULT

/-- One feed entry: `entry['title']`, `entry['timestamp']` (modelled as an
integer Unix timestamp), `entry['body']`. -/
structure Entry where
  title : String
  timestamp : Int
  body : String
deriving Repr, DecidableEq, Inhabited

/-- The composite read-marker key built in `has_been_read` and
`mark_as_read`: `str(date.timestamp()) + '|' + title`. -/
def entryKey (e : Entry) : String :=
  toString e.timestamp ++ "|" ++ e.title

/-- `has_been_read(entry)`: membership test of the composite key in the
readlist (Python `in` on a list of strings). -/
def has_been_read (readlist : List String) (e : Entry) : Bool :=
  decide (entryKey e ∈ readlist)

/-- Process state: the in-memory `READLIST` and the content of the store
file on disk (`none` = no file; `some rl` = a pickled store whose readlist
component is `rl`). -/
structure Machine where
  readlist : List String
  disk : Option (List String)
deriving Repr, DecidableEq

/-- `save_datfile()`: in `--debug` mode it returns immediately (no write);
otherwise it rewrites the store file with the current readlist; on a
`PermissionError` it prints a red `ERROR:` message on stderr and calls
`sys.exit(255)`.  Result: (new machine, stderr lines, exit code).
`perm` says whether opening the file for writing succeeds. -/
def save_datfile (debug perm : Bool) (filename : String) (m : Machine) :
    Machine × List String × Option Nat :=
  if debug then (m, [], none)
  else if perm then (⟨m.readlist, some m.readlist⟩, [], none)
  else (m, [RED ++ "ERROR: " ++ CLEAR ++
    "Unable to save read information, please re-run with correct permissions to access \"" ++
    filename ++ "\"."], some 255)

/-- `mark_as_read(entry)`: no-op if already read, else append the composite
key to `READLIST` and call `save_datfile`.  Result: (new machine, whether
`save_datfile` was invoked, exit code from a failed save). -/
def mark_as_read (debug perm : Bool) (filename : String) (m : Machine) (e : Entry) :
    Machine × Bool × Option Nat :=
  if has_been_read m.readlist e then (m, false, none)
  else
    let s := save_datfile debug perm filename ⟨m.readlist ++ [entryKey e], m.disk⟩
    (s.1, true, s.2.2)

/-- A sequence of `mark_as_read` calls, as performed by `read --all`
(`for entry in feed: mark_as_read(entry)`). -/
def mark_seq (debug perm : Bool) (filename : String) (m : Machine) : List Entry → Machine
  | [] => m
  | e :: rest => mark_seq debug perm filename (mark_as_read debug perm filename m e).1 rest

/-- One printed event on stdout.  `item e` stands for
`pretty_print_item(e)` (title, timestamp, converted body), `summary n` for
the `There are N unread news items! ...` line, `pacman s` for
`pacman_msg(s)`. -/
inductive Output where
  | item (e : Entry)
  | summary (n : Nat)
  | pacman (s : String)
deriving Repr, DecidableEq

/-- Result of `check_cmd`: stdout trace, final state, `sys.exit` code. -/
structure CheckResult where
  output : List Output
  m : Machine
  exitCode : Nat
deriving Repr, DecidableEq

/-- `check_cmd(feed)`: count unread entries (collecting them in order); if
exactly one, print it (bracketed by pacman advisories when running from
pacman) and mark it read — a failed save exits 255 there; if more than
one, print only the summary (plus a pacman advisory); exit with the
unread count. -/
def check_cmd (rfp debug perm : Bool) (filename : String) (feed : List Entry)
    (m : Machine) : CheckResult :=
  let unread_items := feed.filter (fun e => !(has_been_read m.readlist e))
  let unread := unread_items.length
  if unread = 1 then
    let e := unread_items.getD 0 ⟨"", 0, ""⟩
    let pre := if rfp then [Output.pacman "Stopping upgrade to print news"] else []
    let r := mark_as_read debug perm filename m e
    match r.2.2 with
    | some c => ⟨pre ++ [Output.item e], r.1, c⟩
    | none =>
      let post := if rfp then
        [Output.pacman "You can re-run your pacman command to complete the upgrade"]
        else []
      ⟨pre ++ [Output.item e] ++ post, r.1, 1⟩
  else if 1 < unread then
    ⟨Output.summary unread ::
      (if rfp then [Output.pacman "Run `informant read` before re-running your pacman command"]
       else []),
     m, unread⟩
  else
    ⟨[], m, 0⟩

/-- The loop body of `list_cmd`: iterate the (possibly reversed) feed,
printing `format_list_item(entry, index)` — modelled as the pair
`(index, entry)` — for each surviving entry and incrementing the index
only on printed entries.  The guard is literally
`not --unread or (--unread and not has_been_read(entry))`. -/
def listLoop (readlist : List String) (un : Bool) : List Entry → Nat → List (Nat × Entry)
  | [], _ => []
  | e :: rest, index =>
    if (!un) || (un && !(has_been_read readlist e)) then
      (index, e) :: listLoop readlist un rest (index + 1)
    else
      listLoop readlist un rest index

/-- `list_cmd(feed)`: run the list loop over `reversed(feed)` when
`--reverse` is given, else over `feed`, starting the index at 0. -/
def list_cmd (feed : List Entry) (readlist : List String) (rev un : Bool) :
    List (Nat × Entry) :=
  listLoop readlist un (if rev then feed.reverse else feed) 0

/-- `list_cmd` as a state transformer: its body calls only
`has_been_read` and `format_list_item`, never `mark_as_read` or
`save_datfile`, so the machine passes through untouched. -/
def list_cmd_run (feed : List Entry) (rev un : Bool) (m : Machine) :
    List (Nat × Entry) × Machine :=
  (list_cmd feed m.readlist rev un, m)

/-- The sort in `run()`:
`sorted(feed, key=lambda k: k['timestamp'], reverse=True)` — a stable sort
by timestamp descending. -/
def sortFeed (feed : List Entry) : List Entry :=
  feed.mergeSort (fun a b => decide (b.timestamp ≤ a.timestamp))

/-- Unhandled Python exceptions that `read_cmd` can hit. -/
inductive PyError where
  | nameError
  | indexError
deriving Repr, DecidableEq

/-- Digit-run accumulator for `parsePyInt`. -/
def parseDigitsAux : List Char → Nat → Option Nat
  | [], acc => some acc
  | c :: rest, acc =>
    if c.isDigit then parseDigitsAux rest (acc * 10 + (c.toNat - 48)) else none

/-- A nonempty run of decimal digits, as a number. -/
def parseDigits : List Char → Option Nat
  | [] => none
  | l => parseDigitsAux l 0

/-- Python `int(s)` on the selector string: an optional sign followed by
decimal digits (the whitespace stripping and underscore grouping that
`int` also tolerates are irrelevant to the claims and not modelled);
`none` models the `ValueError` branch. -/
def parsePyInt (s : String) : Option Int :=
  match s.data with
  | '-' :: rest => (parseDigits rest).map (fun n => -(n : Int))
  | '+' :: rest => (parseDigits rest).map (fun n => (n : Int))
  | l => (parseDigits l).map (fun n => (n : Int))

/-- Python list indexing `feed[item]`: negative indices count from the
end; out-of-range indices raise `IndexError` (uncaught in `read_cmd`,
whose `except` clause only catches `ValueError`). -/
def pyIndex (l : List Entry) (i : Int) : Except PyError Entry :=
  let j : Int := if i < 0 then i + (l.length : Int) else i
  if 0 ≤ j ∧ j < (l.length : Int) then
    Except.ok (l.getD j.toNat ⟨"", 0, ""⟩)
  else
    Except.error PyError.indexError

/-- Result of the explicit-selector branch of `read_cmd`: stdout trace,
final state, unhandled exception if any, exit code from a failed save. -/
structure ReadResult where
  output : List Output
  m : Machine
  exc : Option PyError
  exitCode : Option Nat
deriving Repr, DecidableEq

/-- The `if ARGV[ITEM_ARG]:` branch of `read_cmd`.  `item = int(selector)`
is attempted first; if it succeeds, `entry = feed[item]` (IndexError
uncaught), then the entry is printed and marked read.  If `int` raises
`ValueError`, the assignment to `item` never happened, so the fallback
loop `for entry in feed: if entry.title == item` dereferences the unbound
local `item` and raises `NameError` on the first entry (with an empty
feed, `entry` itself is unbound at `pretty_print_item(entry)`, again a
`NameError`); nothing is printed or marked in that case. -/
def read_cmd_item (debug perm : Bool) (filename : String) (feed : List Entry)
    (selector : String) (m : Machine) : ReadResult :=
  match parsePyInt selector with
  | some i =>
    match pyIndex feed i with
    | Except.ok e =>
      let r := mark_as_read debug perm filename m e
      ⟨[Output.item e], r.1, none, r.2.2⟩
    | Except.error err => ⟨[], m, some err, none⟩
  | none => ⟨[], m, some PyError.nameError, none⟩

/-- The two default cache dictionaries built by `get_datfile`, plus an
opaque representative for a successfully unpickled cache. -/
inductive Cache where
  | emptyFeedAge
  | emptyComponents
  | loaded (data : Nat)
deriving Repr, DecidableEq

/-- Exceptions `pickle.load` can raise on a bad store file.  The `except`
clause in `get_datfile` names exactly `(EOFError, ValueError)`;
`pickle.UnpicklingError` (raised e.g. on an invalid load key in a corrupt
stream) is a `PickleError`, not a `ValueError`, and is not caught. -/
inductive LoadErr where
  | eofError
  | valueError
  | unpicklingError
deriving Repr, DecidableEq

/-- What reading the store file yields before deserialization handling:
the file may be missing or unreadable (`FileNotFoundError` /
`PermissionError`, both caught by the outer `except`), or its contents
deserialize to a `(cache, readlist)` pair or raise. -/
inductive FileRead where
  | missing
  | permissionDenied
  | content (res : Except LoadErr (Cache × List String))
deriving Repr

/-- `get_datfile(filename)`: missing/unreadable file gives the
`(feed, components)` default store; `EOFError` or `ValueError` while
unpickling gives the `(feed, max-age, last-request)` default store; any
other exception from `pickle.load` propagates to the caller. -/
def get_datfile (r : FileRead) : Except LoadErr (Cache × List String) :=
  match r with
  | FileRead.missing => Except.ok (Cache.emptyComponents, [])
  | FileRead.permissionDenied => Except.ok (Cache.emptyComponents, [])
  | FileRead.content res =>
    match res with
    | Except.ok pair => Except.ok pair
    | Except.error LoadErr.eofError => Except.ok (Cache.emptyFeedAge, [])
    | Except.error LoadErr.valueError => Except.ok (Cache.emptyFeedAge, [])
    | Except.error err => Except.error err

/-! ## Helper lemmas -/

/-- `save_datfile` never changes the in-memory readlist. -/
lemma save_datfile_readlist (debug perm : Bool) (f : String) (m : Machine) :
    (save_datfile debug perm f m).1.readlist = m.readlist := by
  rcases debug <;> rcases perm <;> simp [save_datfile]

/-- The readlist after `mark_as_read`. -/
lemma mark_as_read_readlist (debug perm : Bool) (f : String) (m : Machine) (e : Entry) :
    (mark_as_read debug perm f m e).1.readlist =
      if has_been_read m.readlist e then m.readlist else m.readlist ++ [entryKey e] := by
  unfold mark_as_read
  split
  · simp
  · simp [save_datfile_readlist]

/-- Appending an entry's key makes it read. -/
lemma has_been_read_append_self (rl : List String) (e : Entry) :
    has_been_read (rl ++ [entryKey e]) e = true := by
  simp [has_been_read]

/-- `mark_as_read` on an already-read entry is a complete no-op: same
machine, no save call, no exit. -/
lemma mark_as_read_already (debug perm : Bool) (f : String) (m : Machine) (e : Entry)
    (h : has_been_read m.readlist e = true) :
    mark_as_read debug perm f m e = (m, false, none) := by
  simp [mark_as_read, h]

/-- After `mark_as_read`, the entry tests as read. -/
lemma has_been_read_mark (debug perm : Bool) (f : String) (m : Machine) (e : Entry) :
    has_been_read (mark_as_read debug perm f m e).1.readlist e = true := by
  rw [mark_as_read_readlist]
  split
  · assumption
  · exact has_been_read_append_self m.readlist e

/-! ## Claim theorems -/

/-- Claim C4: mark-as-read is idempotent — marking the same entry a second
time yields a marker list of the same length as after the first call, and
the second call does not invoke `save_datfile`. -/
theorem mark_as_read_idempotent (debug perm : Bool) (filename : String) (m : Machine)
    (e : Entry) :
    (mark_as_read debug perm filename (mark_as_read debug perm filename m e).1 e).1.readlist.length
      = (mark_as_read debug perm filename m e).1.readlist.length ∧
    (mark_as_read debug perm filename (mark_as_read debug perm filename m e).1 e).2.1 = false := by
  have h := has_been_read_mark debug perm filename m e
  rw [mark_as_read_already debug perm filename _ e h]
  exact ⟨rfl, rfl⟩

/-- Claim C5: `has_been_read` is true exactly when the composite key
`timestamp|title` is in the marker list; after `mark_as_read` the entry is
read; an entry whose key is absent is unread. -/
theorem has_been_read_key_spec (debug perm : Bool) (filename : String)
    (rl : List String) (disk : Option (List String)) (e : Entry) :
    (has_been_read rl e = true ↔ (toString e.timestamp ++ "|" ++ e.title) ∈ rl) ∧
    (has_been_read rl e = false ↔ (toString e.timestamp ++ "|" ++ e.title) ∉ rl) ∧
    has_been_read (mark_as_read debug perm filename ⟨rl, disk⟩ e).1.readlist e = true := by
  refine ⟨?_, ?_, has_been_read_mark debug perm filename ⟨rl, disk⟩ e⟩
  · simp [has_been_read, entryKey]
  · simp [has_been_read, entryKey]

/-- Claim C7: the list command never mutates read-state — neither the
in-memory marker list nor the on-disk store. -/
theorem list_cmd_no_mutation (feed : List Entry) (rev un : Bool) (m : Machine) :
    (list_cmd_run feed rev un m).2.readlist = m.readlist ∧
    (list_cmd_run feed rev un m).2.disk = m.disk :=
  ⟨rfl, rfl⟩

/-- In debug mode no disk write happens, and the readlist evolves exactly
as it would in normal mode with successful saves. -/
lemma mark_seq_debug_aux (perm : Bool) (f : String) (es : List Entry) :
    ∀ m1 m2 : Machine, m1.readlist = m2.readlist →
      (mark_seq true perm f m1 es).disk = m1.disk ∧
      (mark_seq true perm f m1 es).readlist = (mark_seq false true f m2 es).readlist := by
  induction es with
  | nil => exact fun m1 m2 h => ⟨rfl, h⟩
  | cons e rest ih =>
    intro m1 m2 h
    unfold mark_seq
    by_cases hb : has_been_read m1.readlist e = true
    · have e1 : (mark_as_read true perm f m1 e).1 = m1 := by simp [mark_as_read, hb]
      have e2 : (mark_as_read false true f m2 e).1 = m2 := by
        simp [mark_as_read, ← h, hb]
      rw [e1, e2]
      exact ih m1 m2 h
    · have e1 : (mark_as_read true perm f m1 e).1 =
          ⟨m1.readlist ++ [entryKey e], m1.disk⟩ := by
        simp [mark_as_read, hb, save_datfile]
      have e2 : (mark_as_read false true f m2 e).1 =
          ⟨m2.readlist ++ [entryKey e], some (m2.readlist ++ [entryKey e])⟩ := by
        simp [mark_as_read, ← h, hb, save_datfile]
      rw [e1, e2]
      exact ih ⟨m1.readlist ++ [entryKey e], m1.disk⟩
        ⟨m2.readlist ++ [entryKey e], some (m2.readlist ++ [entryKey e])⟩ (by simp [h])

/-- Claim C8: in debug (dry-run) mode any sequence of mark-as-read calls
leaves the on-disk store unchanged, while the in-memory marker list is
mutated exactly as a normal run with successful saves would mutate it. -/
theorem debug_mode_no_disk_writes (perm : Bool) (filename : String) (m : Machine)
    (es : List Entry) :
    (mark_seq true perm filename m es).disk = m.disk ∧
    (mark_seq true perm filename m es).readlist = (mark_seq false true filename m es).readlist :=
  mark_seq_debug_aux perm filename es m m rfl

/-- Claim C9: a save that hits a permission error (not in debug mode)
emits exactly one stderr line, carrying the red `ERROR:` prefix ahead of
the explanatory text, exits with code 255, and leaves the store file
unwritten. -/
theorem save_datfile_permission_failure (filename : String) (m : Machine) :
    (save_datfile false false filename m).2.1 =
      [RED ++ "ERROR: " ++ CLEAR ++
        "Unable to save read information, please re-run with correct permissions to access \"" ++
        filename ++ "\"."] ∧
    (save_datfile false false filename m).2.2 = some 255 ∧
    (save_datfile false false filename m).1 = m :=
  ⟨rfl, rfl, rfl⟩

/-- Claim C3, counterexample: a corrupt store whose deserialization raises
`pickle.UnpicklingError` is a read failure on the file's contents, yet
`get_datfile` propagates the exception instead of yielding the default
empty store — load can raise to the caller. -/
theorem get_datfile_corrupt_raises :
    get_datfile (FileRead.content (Except.error LoadErr.unpicklingError)) =
      Except.error LoadErr.unpicklingError :=
  rfl

/-- Claim C3, amended: loading fails soft — yielding a default empty cache
and an empty marker list — for a missing file, a permission error, and
exactly the `EOFError`/`ValueError` deserialization failures; a successful
read is returned as-is; any other deserialization failure (such as
`pickle.UnpicklingError` on a corrupt stream) propagates to the caller. -/
theorem get_datfile_fail_soft :
    get_datfile FileRead.missing = Except.ok (Cache.emptyComponents, []) ∧
    get_datfile FileRead.permissionDenied = Except.ok (Cache.emptyComponents, []) ∧
    get_datfile (FileRead.content (Except.error LoadErr.eofError)) =
      Except.ok (Cache.emptyFeedAge, []) ∧
    get_datfile (FileRead.content (Except.error LoadErr.valueError)) =
      Except.ok (Cache.emptyFeedAge, []) ∧
    (∀ (c : Cache) (rl : List String),
      get_datfile (FileRead.content (Except.ok (c, rl))) = Except.ok (c, rl)) ∧
    get_datfile (FileRead.content (Except.error LoadErr.unpicklingError)) =
      Except.error LoadErr.unpicklingError :=
  ⟨rfl, rfl, rfl, rfl, fun _ _ => rfl, rfl⟩

/-- The entries printed by the list loop are exactly the entries
surviving the `--unread` filter, in feed order. -/
lemma listLoop_map_snd (rl : List String) (un : Bool) :
    ∀ (l : List Entry) (n : Nat),
      (listLoop rl un l n).map Prod.snd =
        l.filter (fun e => (!un) || (un && !(has_been_read rl e))) := by
  intro l
  induction l with
  | nil => intro n; simp [listLoop]
  | cons e rest ih =>
    intro n
    by_cases hc : ((!un) || (un && !(has_been_read rl e))) = true
    · simp [listLoop, hc, ih]
    · simp [listLoop, hc, ih]

/-- The indices printed by the list loop count up by one from the start
index, one per printed entry. -/
lemma listLoop_map_fst (rl : List String) (un : Bool) :
    ∀ (l : List Entry) (n : Nat),
      (listLoop rl un l n).map Prod.fst =
        List.range' n (listLoop rl un l n).length := by
  intro l
  induction l with
  | nil => intro n; simp [listLoop]
  | cons e rest ih =>
    intro n
    by_cases hc : ((!un) || (un && !(has_been_read rl e))) = true
    · simp [listLoop, hc, ih, List.range'_succ]
    · simp [listLoop, hc, ih]

/-- `sortFeed` sorts the feed by timestamp descending. -/
lemma sortFeed_sorted (feed : List Entry) :
    (sortFeed feed).Pairwise (fun a b => b.timestamp ≤ a.timestamp) := by
  have h := @List.sorted_mergeSort Entry
    (fun a b : Entry => decide (b.timestamp ≤ a.timestamp))
    (fun a b c hab hbc => by
      simp only [decide_eq_true_eq] at *
      omega)
    (fun a b => by
      simp only [Bool.or_eq_true, decide_eq_true_eq]
      omega)
    feed
  exact h.imp (fun hab => by simpa using hab)

/-- Claim C6: the list command over the canonically sorted feed numbers
its printed entries 0, 1, 2, … over the filtered set (for any combination
of `--reverse` and `--unread`), prints entries in descending timestamp
order without `--reverse`, and in ascending order with it. -/
theorem list_cmd_order_and_numbering (feed : List Entry) (rl : List String) (un : Bool) :
    (∀ rev : Bool, (list_cmd (sortFeed feed) rl rev un).map Prod.fst =
      List.range (list_cmd (sortFeed feed) rl rev un).length) ∧
    ((list_cmd (sortFeed feed) rl false un).map Prod.snd).Pairwise
      (fun a b => b.timestamp ≤ a.timestamp) ∧
    ((list_cmd (sortFeed feed) rl true un).map Prod.snd).Pairwise
      (fun a b => a.timestamp ≤ b.timestamp) := by
  refine ⟨?_, ?_, ?_⟩
  · intro rev
    rw [List.range_eq_range']
    exact listLoop_map_fst rl un _ 0
  · have h : (list_cmd (sortFeed feed) rl false un).map Prod.snd =
        (sortFeed feed).filter (fun e => (!un) || (un && !(has_been_read rl e))) := by
      simp only [list_cmd, Bool.false_eq_true, if_neg, ite_false]
      exact listLoop_map_snd rl un (sortFeed feed) 0
    rw [h]
    exact (sortFeed_sorted feed).filter _
  · have h : (list_cmd (sortFeed feed) rl true un).map Prod.snd =
        (sortFeed feed).reverse.filter (fun e => (!un) || (un && !(has_been_read rl e))) := by
      simp only [list_cmd, ite_true]
      exact listLoop_map_snd rl un (sortFeed feed).reverse 0
    rw [h]
    refine List.Pairwise.filter _ ?_
    exact List.pairwise_reverse.mpr (sortFeed_sorted feed)

/-- Claim C1: `check` exits with the unread count.  Zero unread: no
output, no state change, exit 0.  Exactly one unread entry (and a save
that does not hit a permission failure): that entry is printed fully
formatted (bracketed by pacman advisories when running from pacman),
its key is appended to the marker list (and saved unless in debug mode),
and the exit code is 1.  More than one unread: only the summary line
(plus a pacman advisory) is printed, nothing is marked, and the exit
code is the unread count. -/
theorem check_cmd_spec (rfp debug perm : Bool) (filename : String) (feed : List Entry)
    (m : Machine) :
    (feed.filter (fun e => !(has_been_read m.readlist e)) = [] →
      check_cmd rfp debug perm filename feed m = ⟨[], m, 0⟩) ∧
    (∀ e, feed.filter (fun e => !(has_been_read m.readlist e)) = [e] →
      (debug || perm) = true →
      check_cmd rfp debug perm filename feed m =
        ⟨(if rfp then [Output.pacman "Stopping upgrade to print news"] else []) ++
          [Output.item e] ++
          (if rfp then [Output.pacman "You can re-run your pacman command to complete the upgrade"]
           else []),
         ⟨m.readlist ++ [entryKey e],
          if debug then m.disk else some (m.readlist ++ [entryKey e])⟩,
         1⟩) ∧
    (∀ a b t, feed.filter (fun e => !(has_been_read m.readlist e)) = a :: b :: t →
      check_cmd rfp debug perm filename feed m =
        ⟨Output.summary (a :: b :: t).length ::
          (if rfp then [Output.pacman "Run `informant read` before re-running your pacman command"]
           else []),
         m, (a :: b :: t).length⟩) := by
  refine ⟨?_, ?_, ?_⟩
  · intro h
    simp [check_cmd, h]
  · intro e h hsave
    have hub : has_been_read m.readlist e = false := by
      have hmem : e ∈ feed.filter (fun e => !(has_been_read m.readlist e)) := by
        rw [h]; exact List.mem_cons_self e []
      have := (List.mem_filter.mp hmem).2
      simpa using this
    rcases debug with _ | _
    · have hp : perm = true := by simpa using hsave
      subst hp
      simp [check_cmd, h, mark_as_read, hub, save_datfile]
    · simp [check_cmd, h, mark_as_read, hub, save_datfile]
  · intro a b t h
    simp [check_cmd, h]

/-- Witness for C1 at concrete inputs: an all-read feed, a single unread
entry, and two unread entries. -/
theorem check_cmd_spec_witness :
    check_cmd false false true "f" [] ⟨[], none⟩ = ⟨[], ⟨[], none⟩, 0⟩ ∧
    check_cmd false false true "f" [⟨"A", 1, "a"⟩] ⟨[], none⟩ =
      ⟨[Output.item ⟨"A", 1, "a"⟩], ⟨["1|A"], some ["1|A"]⟩, 1⟩ ∧
    check_cmd false false true "f" [⟨"A", 1, "a"⟩, ⟨"B", 2, "b"⟩] ⟨[], none⟩ =
      ⟨[Output.summary 2], ⟨[], none⟩, 2⟩ := by
  refine ⟨?_, ?_, ?_⟩
  · exact (check_cmd_spec false false true "f" [] ⟨[], none⟩).1 (by decide)
  · have h := (check_cmd_spec false false true "f" [⟨"A", 1, "a"⟩] ⟨[], none⟩).2.1
      ⟨"A", 1, "a"⟩ (by decide) (by decide)
    rw [h]; decide
  · have h := (check_cmd_spec false false true "f" [⟨"A", 1, "a"⟩, ⟨"B", 2, "b"⟩] ⟨[], none⟩).2.2
      ⟨"A", 1, "a"⟩ ⟨"B", 2, "b"⟩ [] (by decide)
    rw [h]; decide

/-- Claim C10: the integer-selector path of `read` indexes the feed with
no bounds check — any index at or past the feed length (or below minus
the length) hits an uncaught `IndexError` rather than any reported
not-found condition, while a negative in-range index is accepted and
selects from the end of the feed. -/
theorem read_cmd_index_unchecked (debug perm : Bool) (filename : String)
    (feed : List Entry) (s : String) (i : Int) (m : Machine)
    (hp : parsePyInt s = some i) :
    (((feed.length : Int) ≤ i ∨ i < -(feed.length : Int)) →
      read_cmd_item debug perm filename feed s m = ⟨[], m, some PyError.indexError, none⟩) ∧
    ((-(feed.length : Int) ≤ i ∧ i < 0) →
      (read_cmd_item debug perm filename feed s m).exc = none ∧
      (read_cmd_item debug perm filename feed s m).output =
        [Output.item (feed.getD (i + (feed.length : Int)).toNat ⟨"", 0, ""⟩)]) := by
  constructor
  · intro hrange
    have hidx : pyIndex feed i = Except.error PyError.indexError := by
      rcases hrange with h1 | h2
      · have hneg : ¬ i < 0 := by omega
        simp only [pyIndex, if_neg hneg]
        rw [if_neg (by omega)]
      · have hneg : i < 0 := by omega
        simp only [pyIndex, if_pos hneg]
        rw [if_neg (by omega)]
    simp [read_cmd_item, hp, hidx]
  · rintro ⟨h1, h2⟩
    have hidx : pyIndex feed i =
        Except.ok (feed.getD (i + (feed.length : Int)).toNat ⟨"", 0, ""⟩) := by
      simp only [pyIndex, if_pos h2]
      rw [if_pos (by constructor <;> omega)]
    constructor
    · simp [read_cmd_item, hp, hidx]
    · simp [read_cmd_item, hp, hidx]

/-- Witness for C10: on a two-entry feed, selector `"5"` crashes with
`IndexError`, and selector `"-1"` selects the last (oldest) entry. -/
theorem read_cmd_index_unchecked_witness :
    read_cmd_item false true "f" [⟨"A", 2, "a"⟩, ⟨"B", 1, "b"⟩] "5" ⟨[], none⟩ =
      ⟨[], ⟨[], none⟩, some PyError.indexError, none⟩ ∧
    (read_cmd_item false true "f" [⟨"A", 2, "a"⟩, ⟨"B", 1, "b"⟩] "-1" ⟨[], none⟩).output =
      [Output.item ⟨"B", 1, "b"⟩] := by
  constructor
  · exact (read_cmd_index_unchecked false true "f" [⟨"A", 2, "a"⟩, ⟨"B", 1, "b"⟩] "5" 5
      ⟨[], none⟩ (by decide)).1 (Or.inl (by decide))
  · have h := (read_cmd_index_unchecked false true "f" [⟨"A", 2, "a"⟩, ⟨"B", 1, "b"⟩] "-1" (-1)
      ⟨[], none⟩ (by decide)).2 ⟨by decide, by decide⟩
    rw [h.2]; decide

/-- Claim C2, behavior at the failing input: with the feed containing an
entry titled exactly `"A"` and the selector `"A"`, the `int` conversion
raises `ValueError` before `item` is bound, so the title-scan loop
dereferences the unbound local `item` and dies with an uncaught
`NameError` — no entry is printed, nothing is marked read. -/
theorem read_cmd_title_selector_crash :
    read_cmd_item false true FILE_DEFAULT [⟨"A", 1, "body"⟩] "A" ⟨[], none⟩ =
      ⟨[], ⟨[], none⟩, some PyError.nameError, none⟩ := by
  decide

end Informant
